import Mathlib

/-!
Verification of `src/world_generator.py` (AsciiWorldMapGen).

The Python source is shallowly embedded below.

* Python `float` arithmetic is modelled by `ℚ`.  `math.sqrt`, whose exact
  value is irrational in general, is taken as an explicit function argument
  `sq : ℚ → ℚ` of the heightmap synthesizer; every theorem quantifies over
  `sq`, so it holds in particular for the real square root.
* The optional `noise.pnoise2` backend is an external C library, so it is
  modelled as an `Option Pnoise` argument, `Pnoise` being an arbitrary
  function of the arguments the code passes (`x*scale`, `y*scale`,
  `octaves`, `base`); `none` selects the fallback branch of `_perlin`.
* Python `random.Random` (CPython's MT19937: `init_genrand`,
  `init_by_array`, seeding by absolute value, and the 53-bit `random()`)
  is embedded word for word from CPython's `_randommodule.c`.
* The `randint` stream consumed by `_find_rivers` is abstracted as an
  oracle `rr : ℕ → ℕ` (CPython's `_randbelow` rejection sampling has no
  a-priori bound, so it is not a total function of any finite prefix of
  the underlying bit stream); river theorems quantify over all oracles and
  hence cover the real stream.
* Python exceptions are modelled by `Except`/`Option` results:
  `WorldGenerator.__init__` returns `Except String Gen`, and `ascii_map`
  returns `none` exactly when the Python code raises `ZeroDivisionError`.
-/

/-! ### CPython `random.Random`: MT19937 -/

/-- 32-bit truncation, `x & 0xffffffff` of the C implementation. -/
def mask32 (n : ℕ) : ℕ := n % 4294967296

/-- Tail of `init_genrand`:
`mt[i] = (1812433253 * (mt[i-1] ^ (mt[i-1] >> 30)) + i) & 0xffffffff`,
built front-to-back with the previous word carried along. -/
def initGenrandGo (prev i : ℕ) : ℕ → List ℕ
  | 0 => []
  | fuel + 1 =>
    let cur := mask32 (1812433253 * (prev ^^^ (prev >>> 30)) + i)
    cur :: initGenrandGo cur (i + 1) fuel

/-- MT19937 `init_genrand(s)`: the 624-word state seeded from a single word. -/
def initGenrand (s : ℕ) : List ℕ :=
  let m0 := mask32 s
  m0 :: initGenrandGo m0 1 623

/-- One update of the first `init_by_array` mixing loop:
`mt[i] = ((mt[i] ^ ((mt[i-1] ^ (mt[i-1] >> 30)) * 1664525)) + key[j] + j) & 0xffffffff`. -/
def mixStep1 (prev cur keyj j : ℕ) : ℕ :=
  mask32 ((cur ^^^ mask32 ((prev ^^^ (prev >>> 30)) * 1664525)) + keyj + j)

/-- One update of the second `init_by_array` mixing loop:
`mt[i] = ((mt[i] ^ ((mt[i-1] ^ (mt[i-1] >> 30)) * 1566083941)) - i) & 0xffffffff`
(32-bit wrap-around subtraction; `i ≤ 623`, so adding `2^32 - i` is the same). -/
def mixStep2 (prev cur i : ℕ) : ℕ :=
  mask32 ((cur ^^^ mask32 ((prev ^^^ (prev >>> 30)) * 1566083941)) + (4294967296 - i))

/-- First `init_by_array` loop: `max(624, len(key))` iterations; the index `i`
wraps from 624 back to 1 after copying `mt[623]` into `mt[0]`, and `j` cycles
through the key. -/
def mixLoop1 (key : List ℕ) (mt : List ℕ) (i j : ℕ) : ℕ → List ℕ × ℕ
  | 0 => (mt, i)
  | fuel + 1 =>
    let prev := mt.getD (i - 1) 0
    let cur := mt.getD i 0
    let mt1 := mt.set i (mixStep1 prev cur (key.getD j 0) j)
    let i1 := i + 1
    let st := if 624 ≤ i1 then (mt1.set 0 (mt1.getD 623 0), 1) else (mt1, i1)
    let j1 := if key.length ≤ j + 1 then 0 else j + 1
    mixLoop1 key st.1 st.2 j1 fuel

/-- Second `init_by_array` loop: 623 iterations, same wrap-around discipline. -/
def mixLoop2 (mt : List ℕ) (i : ℕ) : ℕ → List ℕ
  | 0 => mt
  | fuel + 1 =>
    let prev := mt.getD (i - 1) 0
    let cur := mt.getD i 0
    let mt1 := mt.set i (mixStep2 prev cur i)
    let i1 := i + 1
    let st := if 624 ≤ i1 then (mt1.set 0 (mt1.getD 623 0), 1) else (mt1, i1)
    mixLoop2 st.1 st.2 fuel

/-- State and index after the first `init_by_array` mixing loop, which starts at
`i = 1`, `j = 0` on the state seeded with 19650218. -/
def mixPhase1 (key : List ℕ) : List ℕ × ℕ :=
  mixLoop1 key (initGenrand 19650218) 1 0 (max 624 key.length)

/-- State after the second `init_by_array` mixing loop. -/
def mixPhase2 (key : List ℕ) : List ℕ :=
  mixLoop2 (mixPhase1 key).1 (mixPhase1 key).2 623

/-- MT19937 `init_by_array(key)` exactly as in CPython's `_randommodule.c`:
seed with 19650218, run the two mixing loops, then pin `mt[0] = 0x80000000`. -/
def initByArray (key : List ℕ) : List ℕ :=
  (mixPhase2 key).set 0 2147483648

/-- One step of the MT19937 twist, in place like the C code (the reads at
`(i+1) % 624` and `(i+397) % 624` see already regenerated words exactly when
those indices are below `i`). -/
def twistStep (mt : List ℕ) (i : ℕ) : List ℕ :=
  let y := (mt.getD i 0 &&& 2147483648) ||| (mt.getD ((i + 1) % 624) 0 &&& 2147483647)
  mt.set i ((mt.getD ((i + 397) % 624) 0) ^^^ (y >>> 1) ^^^ (if y % 2 = 1 then 2567483615 else 0))

/-- Twist loop over indices `0..623`. -/
def twistGo (mt : List ℕ) (i : ℕ) : ℕ → List ℕ
  | 0 => mt
  | fuel + 1 => twistGo (twistStep mt i) (i + 1) fuel

/-- Full MT19937 twist. -/
def twistAll (mt : List ℕ) : List ℕ := twistGo mt 0 624

/-- MT19937 tempering of one output word. -/
def temper (y0 : ℕ) : ℕ :=
  let y1 := y0 ^^^ (y0 >>> 11)
  let y2 := y1 ^^^ ((y1 <<< 7) &&& 2636928640)
  let y3 := y2 ^^^ ((y2 <<< 15) &&& 4022730752)
  mask32 (y3 ^^^ (y3 >>> 18))

/-- The state of a `random.Random` instance: the 624-word vector and the cursor
`mti` into it. -/
structure MTState where
  mt : List ℕ
  mti : ℕ
deriving DecidableEq

/-- `genrand_uint32`: twist when the cursor has run off the end, then temper the
word under the cursor. -/
def genrand (s : MTState) : ℕ × MTState :=
  let s1 := if 624 ≤ s.mti then MTState.mk (twistAll s.mt) 0 else s
  (temper (s1.mt.getD s1.mti 0), MTState.mk s1.mt (s1.mti + 1))

/-- CPython `random_random`: two 32-bit draws assembled into a 53-bit numerator
over `2^53`. -/
def mtRandom (s : MTState) : ℚ × MTState :=
  let r1 := genrand s
  let r2 := genrand r1.2
  (((r1.1 >>> 5) * 67108864 + (r2.1 >>> 6) : ℕ) / (9007199254740992 : ℚ), r2.2)

/-- Little-endian 32-bit chunking worker; the first argument is fuel (any value
`≥ n` makes it exact, since `n / 2^32 < n` for `n ≥ 1`). -/
def seedChunksGo : ℕ → ℕ → List ℕ
  | _, 0 => []
  | 0, _ + 1 => []
  | fuel + 1, n + 1 => mask32 (n + 1) :: seedChunksGo fuel ((n + 1) / 4294967296)

/-- Little-endian 32-bit chunks of a natural number (CPython's key layout for
integer seeding). -/
def seedChunks (n : ℕ) : List ℕ := seedChunksGo n n

/-- CPython's seeding key for an integer: absolute value split into 32-bit words
(one zero word for 0). -/
def initKey (n : ℤ) : List ℕ :=
  if n.natAbs = 0 then [0] else seedChunks n.natAbs

/-- CPython `random_seed` applied to an integer: build the key and run
`init_by_array`.  The cursor starts exhausted, so the first draw twists. -/
def pySeedState (n : ℤ) : MTState :=
  MTState.mk (initByArray (initKey n)) 624

/-- The value of `random.Random(n).random()`. -/
def pyRandom (n : ℤ) : ℚ := (mtRandom (pySeedState n)).1

/-! ### Python integer primitives -/

/-- Python `int(...)` applied to a real number: truncation toward zero. -/
def pyInt (q : ℚ) : ℤ := Int.tdiv q.num q.den

/-- Python `^` (bitwise XOR) on arbitrary-precision signed integers, i.e. XOR
of the infinite two's-complement representations (`negSucc m` stands for the
complement of `m`). -/
def izor : ℤ → ℤ → ℤ
  | .ofNat m, .ofNat n => .ofNat (m ^^^ n)
  | .ofNat m, .negSucc n => .negSucc (m ^^^ n)
  | .negSucc m, .ofNat n => .negSucc (m ^^^ n)
  | .negSucc m, .negSucc n => .ofNat (m ^^^ n)

/-! ### The generator -/

/-- The type of the external `noise.pnoise2` backend as `_perlin` calls it:
arguments `x*scale`, `y*scale`, `octaves`, `base` (the `repeatx`/`repeaty`
arguments are the fixed constant 4096 and are omitted from the model). -/
abbrev Pnoise : Type := ℚ → ℚ → ℕ → ℤ → ℚ

/-- The hash seed the fallback branch of `_perlin` computes:
`int(x * 1000) ^ int(y * 1000) ^ self.seed ^ base` (Python `int` truncates
toward zero, and `^` is two's-complement XOR). -/
def fallbackSeed (x y : ℚ) (seed base : ℤ) : ℤ :=
  izor (izor (izor (pyInt (x * 1000)) (pyInt (y * 1000))) seed) base

/-- Modelled from the spec (§4.1): the hash seed the spec prescribes for the
fallback, `floor(x*1000) XOR floor(y*1000) XOR seed XOR base` — with a
mathematical floor where the code truncates toward zero. -/
def specFallbackSeed (x y : ℚ) (seed base : ℤ) : ℤ :=
  izor (izor (izor ⌊x * 1000⌋ ⌊y * 1000⌋) seed) base

/-- `WorldGenerator` state after construction: validated dimensions, the
effective seed, and the scale. -/
structure Gen where
  width : ℕ
  height : ℕ
  seed : ℤ
  scale : ℚ
deriving DecidableEq

/-- `seed or random.randint(0, 100000)`: Python `or` keeps the first operand
unless it is falsy (`None` or `0`).  `draw` is the value the process-global
`random.randint(0, 100000)` returns when it is consulted. -/
def seedOr (seed : Option ℤ) (draw : ℤ) : ℤ :=
  match seed with
  | none => draw
  | some v => if v = 0 then draw else v

/-- `WorldGenerator.__init__`: validates the dimensions first — raising
`ValueError("Width and height must be positive")` before any state is set
up — then stores the fields. -/
def mkGen (width height : ℤ) (seed : Option ℤ) (scale : ℚ) (draw : ℤ) :
    Except String Gen :=
  if width ≤ 0 ∨ height ≤ 0 then .error "Width and height must be positive"
  else .ok (Gen.mk width.toNat height.toNat (seedOr seed draw) scale)

/-- `WorldGenerator._perlin` together with the mutable `self.random` it reads
and writes: the fallback branch reseeds `self.random` with the XOR hash
`int(x*1000) ^ int(y*1000) ^ self.seed ^ base` and draws one value; the
backend branch calls `pnoise2(x*scale, y*scale, octaves, base=self.seed +
base)` and leaves the PRNG state alone.  (The code's `if val is None` guard
cannot fire for a total backend and is dropped.) -/
def perlinSt (pn? : Option Pnoise) (seed : ℤ) (st : MTState) (x y scale : ℚ)
    (octaves : ℕ) (base : ℤ) : ℚ × MTState :=
  match pn? with
  | none => mtRandom (pySeedState (fallbackSeed x y seed base))
  | some pn => (pn (x * scale) (y * scale) octaves (seed + base), st)

/-- The value `_perlin` returns; it does not depend on the incoming PRNG state
(the fallback reseeds before drawing). -/
def perlin (pn? : Option Pnoise) (seed : ℤ) (x y scale : ℚ) (octaves : ℕ)
    (base : ℤ) : ℚ :=
  (perlinSt pn? seed (MTState.mk [] 0) x y scale octaves base).1

/-- The body of the `generate_heightmap` loop for cell `(x, y)`: centered
coordinates, continent and detail channels, radial edge falloff (`sq` is
`math.sqrt`), combination, and normalization — unclamped, exactly as in the
code. -/
def heightCell (sq : ℚ → ℚ) (pn? : Option Pnoise) (g : Gen) (x y : ℕ) : ℚ :=
  let nx : ℚ := (x : ℚ) / g.width - 0.5
  let ny : ℚ := (y : ℚ) / g.height - 0.5
  let continent := perlin pn? g.seed nx ny 0.7 2 100 * 0.7
  let detail := perlin pn? g.seed nx ny 3 6 200 * 0.3
  let dist := sq (nx * nx + ny * ny) / 0.7
  let edge := max 0 (1 - dist)
  ((continent + detail) * edge + 0.15 * edge + 1) / 2

/-- `generate_heightmap`: the `height × width` grid of `heightCell`. -/
def heightGrid (sq : ℚ → ℚ) (pn? : Option Pnoise) (g : Gen) : List (List ℚ) :=
  (List.range g.height).map fun y => (List.range g.width).map fun x => heightCell sq pn? g x y

/-- The body of the `_generate_moisture` loop for cell `(x, y)`. -/
def moistCell (pn? : Option Pnoise) (g : Gen) (x y : ℕ) : ℚ :=
  perlin pn? g.seed ((x : ℚ) / g.width) ((y : ℚ) / g.height) 2 4 300 * 0.5 + 0.5

/-- `_generate_moisture`: the `height × width` grid of `moistCell`. -/
def moistGrid (pn? : Option Pnoise) (g : Gen) : List (List ℚ) :=
  (List.range g.height).map fun y => (List.range g.width).map fun x => moistCell pn? g x y

/-- `heightmap[y][x]` (Python row-major indexing), modelled totally. -/
def hmAt (hm : List (List ℚ)) (x y : ℕ) : ℚ := (hm.getD y []).getD x 0

/-- The start-cell search of `_find_rivers`: up to 100 attempts, each drawing
`x = randint(0, width-1)` and `y = randint(0, height-1)` from the oracle,
accepting the first cell with elevation > 0.7; `none` (Python's
`while ... else: continue`) after 100 failures.  Returns the choice and the
next oracle index. -/
def pickStart (hm : List (List ℚ)) (w h : ℕ) (rr : ℕ → ℕ) (idx : ℕ) :
    ℕ → Option (ℕ × ℕ) × ℕ
  | 0 => (none, idx)
  | fuel + 1 =>
    let x := rr idx % w
    let y := rr (idx + 1) % h
    if 0.7 < hmAt hm x y then (some (x, y), idx + 2)
    else pickStart hm w h rr (idx + 2) fuel

/-- The steepest-descent neighbor scan of `_find_rivers`: over the four
axis-aligned offsets in the code's order `[(-1,0), (1,0), (0,-1), (0,1)]`,
keep the first strictly lower in-bounds neighbor seen so far, starting from
the current cell itself. -/
def lowestNeighbor (hm : List (List ℚ)) (w h x y : ℕ) : ℕ × ℕ :=
  let pick := fun (acc : ℚ × ℕ × ℕ) (d : ℤ × ℤ) =>
    let nx := (x : ℤ) + d.1
    let ny := (y : ℤ) + d.2
    if 0 ≤ nx ∧ nx < w ∧ 0 ≤ ny ∧ ny < h then
      if hmAt hm nx.toNat ny.toNat < acc.1 then (hmAt hm nx.toNat ny.toNat, nx.toNat, ny.toNat)
      else acc
    else acc
  (List.foldl pick (hmAt hm x y, x, y) [(-1, 0), (1, 0), (0, -1), (0, 1)]).2

/-- The downhill walk of `_find_rivers`: up to `width + height` steps; each step
adds the current cell to the shared river set, then moves to the steepest
strictly lower neighbor, stopping without moving when no neighbor is lower
or the chosen neighbor's elevation is below 0.28. -/
def riverWalk (hm : List (List ℚ)) (w h : ℕ) (x y : ℕ) (rivers : Finset (ℕ × ℕ)) :
    ℕ → Finset (ℕ × ℕ)
  | 0 => rivers
  | fuel + 1 =>
    let rivers1 := insert (x, y) rivers
    let nxt := lowestNeighbor hm w h x y
    if nxt = (x, y) ∨ hmAt hm nxt.1 nxt.2 < 0.28 then rivers1
    else riverWalk hm w h nxt.1 nxt.2 rivers1 fuel

/-- The outer loop of `_find_rivers` over the requested rivers, threading the
oracle index and the shared set. -/
def findRiversGo (hm : List (List ℚ)) (w h : ℕ) (rr : ℕ → ℕ)
    (rivers : Finset (ℕ × ℕ)) (idx : ℕ) : ℕ → Finset (ℕ × ℕ)
  | 0 => rivers
  | n + 1 =>
    let pick := pickStart hm w h rr idx 100
    match pick.1 with
    | none => findRiversGo hm w h rr rivers pick.2 n
    | some (x, y) => findRiversGo hm w h rr (riverWalk hm w h x y rivers (w + h)) pick.2 n

/-- `_find_rivers(heightmap, num_rivers)`: the deduplicated union of all walked
cells. -/
def findRivers (hm : List (List ℚ)) (w h : ℕ) (rr : ℕ → ℕ) (numRivers : ℕ) :
    Finset (ℕ × ℕ) :=
  findRiversGo hm w h rr ∅ 0 numRivers

/-- The latitude factor of `ascii_map`: `1 - abs(lat - 0.5) * 2`. -/
def latFactor (lat : ℚ) : ℚ := 1 - |lat - 0.5| * 2

/-- The per-cell character of `ascii_map` (the `--- Terrain and Biome Logic ---`
`if`/`elif` chain, transcribed with its ANSI glyph strings). -/
def asciiCellChar (h m lat latf : ℚ) (isRiver : Bool) : String :=
  if h < 0.28 then "\x1b[34m~\x1b[0m"
  else if h < 0.32 then "\x1b[36m≈\x1b[0m"
  else if isRiver then "\x1b[96m≋\x1b[0m"
  else if 0.88 < h then "\x1b[37m▲\x1b[0m"
  else if 0.78 < h then "\x1b[37m^\x1b[0m"
  else if lat < 0.13 ∧ 0.33 < h then "\x1b[37m^\x1b[0m"
  else if 0.87 < lat ∧ 0.33 < h then "\x1b[37m^\x1b[0m"
  else if 0.78 < m ∧ 0.35 < h then "\x1b[33m░\x1b[0m"
  else if m < 0.32 ∧ (0.33 < h ∧ h < 0.7) ∧ 0.2 < latf then "\x1b[92m#\x1b[0m"
  else if m < 0.45 ∧ (0.33 < h ∧ h < 0.7) ∧ 0.1 < latf then "\x1b[32mn\x1b[0m"
  else if m < 0.6 ∧ (0.33 < h ∧ h < 0.7) then "\x1b[32m,\x1b[0m"
  else if m < 0.75 ∧ (0.33 < h ∧ h < 0.7) then "\x1b[32m.\x1b[0m"
  else "\x1b[32m·\x1b[0m"

/-- `ascii_map`: build the heightmap, the moisture map, and the rivers, then
render row by row.  The result is `none` exactly when the Python code
raises: `lat = y / (self.height - 1)` divides by zero on every row when
`height = 1`. -/
def asciiMap (sq : ℚ → ℚ) (pn? : Option Pnoise) (g : Gen) (rr : ℕ → ℕ) :
    Option String :=
  let hm := heightGrid sq pn? g
  let mo := moistGrid pn? g
  let rivers := findRivers hm g.width g.height rr 12
  let rows := (List.range g.height).mapM fun (y : ℕ) =>
    if g.height = 1 then none
    else
      let lat : ℚ := (y : ℚ) / ((g.height : ℚ) - 1)
      some (String.join ((List.range g.width).map fun x =>
        asciiCellChar (hmAt hm x y) (hmAt mo x y) lat (latFactor lat)
          (decide ((x, y) ∈ rivers))))
  rows.map (String.intercalate "\n")

/-- The per-pixel colour of `save_image` (an RGB triple; Python `int(...)`
truncates, and the rock band is capped at 255). -/
def heightColor (h : ℚ) : ℤ × ℤ × ℤ :=
  if h < 0.3 then (0, 0, pyInt (200 + 55 * h / 0.3))
  else if h < 0.5 then (194, 178, 128)
  else if h < 0.7 then (34, pyInt (120 + 80 * (h - 0.5) / 0.2), 34)
  else
    let gray := min (pyInt (180 + 75 * (h - 0.7) / 0.3)) 255
    (gray, gray, gray)

/-! ### Spec-side definitions (§4.5 rule table, clamping) -/

/-- Clamping into `[0,1]`, the operation §8's range discipline talks about. -/
def clamp01 (q : ℚ) : ℚ := max 0 (min 1 q)

/-- The biome tags of §4.5 / the data model. -/
inductive Biome
  | ocean | coast | river | highMountain | foothill | tundraNorth | tundraSouth
  | desert | swamp | forest | grassland | plains | defaultLand
deriving DecidableEq

/-- The guard of rule `k` (1-based rule `k+1`) of §4.5's ordered table, as a
boolean predicate of the classifier inputs. -/
def ruleGuard (h m lat latf : ℚ) (r : Bool) : ℕ → Bool
  | 0 => decide (h < 0.28)
  | 1 => decide (h < 0.32)
  | 2 => r
  | 3 => decide (0.88 < h)
  | 4 => decide (0.78 < h)
  | 5 => decide (lat < 0.13 ∧ 0.33 < h)
  | 6 => decide (0.87 < lat ∧ 0.33 < h)
  | 7 => decide (0.78 < m ∧ 0.35 < h)
  | 8 => decide (m < 0.32 ∧ (0.33 < h ∧ h < 0.7) ∧ 0.2 < latf)
  | 9 => decide (m < 0.45 ∧ (0.33 < h ∧ h < 0.7) ∧ 0.1 < latf)
  | 10 => decide (m < 0.6 ∧ (0.33 < h ∧ h < 0.7))
  | 11 => decide (m < 0.75 ∧ (0.33 < h ∧ h < 0.7))
  | _ => true

/-- The tag rule `k` assigns. -/
def ruleTag : ℕ → Biome
  | 0 => .ocean
  | 1 => .coast
  | 2 => .river
  | 3 => .highMountain
  | 4 => .foothill
  | 5 => .tundraNorth
  | 6 => .tundraSouth
  | 7 => .desert
  | 8 => .swamp
  | 9 => .forest
  | 10 => .grassland
  | 11 => .plains
  | _ => .defaultLand

/-- First-match evaluation of §4.5's table: the least rule index whose guard
holds (the default rule 12 always does). -/
def classify (h m lat latf : ℚ) (isRiver : Bool) : Biome :=
  if h < 0.28 then .ocean
  else if h < 0.32 then .coast
  else if isRiver then .river
  else if 0.88 < h then .highMountain
  else if 0.78 < h then .foothill
  else if lat < 0.13 ∧ 0.33 < h then .tundraNorth
  else if 0.87 < lat ∧ 0.33 < h then .tundraSouth
  else if 0.78 < m ∧ 0.35 < h then .desert
  else if m < 0.32 ∧ (0.33 < h ∧ h < 0.7) ∧ 0.2 < latf then .swamp
  else if m < 0.45 ∧ (0.33 < h ∧ h < 0.7) ∧ 0.1 < latf then .forest
  else if m < 0.6 ∧ (0.33 < h ∧ h < 0.7) then .grassland
  else if m < 0.75 ∧ (0.33 < h ∧ h < 0.7) then .plains
  else .defaultLand

/-- The glyph (with its ANSI colour) `ascii_map` prints for each biome tag. -/
def glyph : Biome → String
  | .ocean => "\x1b[34m~\x1b[0m"
  | .coast => "\x1b[36m≈\x1b[0m"
  | .river => "\x1b[96m≋\x1b[0m"
  | .highMountain => "\x1b[37m▲\x1b[0m"
  | .foothill => "\x1b[37m^\x1b[0m"
  | .tundraNorth => "\x1b[37m^\x1b[0m"
  | .tundraSouth => "\x1b[37m^\x1b[0m"
  | .desert => "\x1b[33m░\x1b[0m"
  | .swamp => "\x1b[92m#\x1b[0m"
  | .forest => "\x1b[32mn\x1b[0m"
  | .grassland => "\x1b[32m,\x1b[0m"
  | .plains => "\x1b[32m.\x1b[0m"
  | .defaultLand => "\x1b[32m·\x1b[0m"

/-! ### Helper lemmas -/

theorem hmAt_grid (f : ℕ → ℕ → ℚ) (w hh x y : ℕ) (hx : x < w) (hy : y < hh) :
    hmAt ((List.range hh).map fun b => (List.range w).map fun a => f a b) x y = f x y := by
  simp [hmAt, List.getD, hx, hy]

theorem hmAt_heightGrid (sq : ℚ → ℚ) (pn? : Option Pnoise) (g : Gen) (x y : ℕ)
    (hx : x < g.width) (hy : y < g.height) :
    hmAt (heightGrid sq pn? g) x y = heightCell sq pn? g x y :=
  hmAt_grid _ _ _ _ _ hx hy

theorem hmAt_moistGrid (pn? : Option Pnoise) (g : Gen) (x y : ℕ)
    (hx : x < g.width) (hy : y < g.height) :
    hmAt (moistGrid pn? g) x y = moistCell pn? g x y :=
  hmAt_grid _ _ _ _ _ hx hy

/-! ### C9 — seed 0 is discarded like an omitted seed -/

/-- C9: passing `seed = 0` behaves exactly like passing no seed: Python's
`seed or random.randint(0, 100000)` treats 0 as falsy, so the global draw
becomes the effective seed; any nonzero explicit seed is kept verbatim. -/
theorem seed_zero_like_none (w h : ℤ) (sc : ℚ) (d v : ℤ) (hv : v ≠ 0) :
    mkGen w h (some 0) sc d = mkGen w h none sc d ∧
    seedOr (some 0) d = d ∧ seedOr none d = d ∧ seedOr (some v) d = v := by
  refine ⟨?_, rfl, rfl, by simp [seedOr, hv]⟩
  simp [mkGen, seedOr]

/-- Witness for C9 at `v = 42`, `d = 7`. -/
theorem seed_zero_like_none_witness :
    (42 : ℤ) ≠ 0 ∧
    (mkGen 10 10 (some 0) (1/10) 7 = mkGen 10 10 none (1/10) 7 ∧
      seedOr (some 0) 7 = 7 ∧ seedOr none 7 = 7 ∧ seedOr (some 42) 7 = 42) :=
  ⟨by decide, seed_zero_like_none 10 10 (1/10) 7 42 (by decide)⟩

/-! ### C6 — construction validation -/

/-- C6: `width ≤ 0` or `height ≤ 0` raises `ValueError` at construction, before
any state is set up (in particular before the global seed draw is consulted:
the result does not depend on `d`), and valid dimensions succeed. -/
theorem invalid_dimensions_raise (w h : ℤ) (s : Option ℤ) (sc : ℚ) (d d' : ℤ)
    (hbad : w ≤ 0 ∨ h ≤ 0) :
    mkGen w h s sc d = .error "Width and height must be positive" ∧
    mkGen w h s sc d = mkGen w h s sc d' ∧
    mkGen 10 10 s sc d = .ok (Gen.mk 10 10 (seedOr s d) sc) := by
  refine ⟨?_, ?_, ?_⟩
  · simp [mkGen, hbad]
  · simp [mkGen, hbad]
  · simp [mkGen]

/-- Witness for C6: `width = 0` and `height = -5` both raise; `10 × 10`
succeeds. -/
theorem invalid_dimensions_raise_witness :
    ((0 : ℤ) ≤ 0 ∨ (10 : ℤ) ≤ 0) ∧
    mkGen 0 10 (some 1) (1/10) 3 = .error "Width and height must be positive" ∧
    mkGen 10 (-5) (some 1) (1/10) 3 = .error "Width and height must be positive" ∧
    mkGen 10 10 (some 1) (1/10) 3 = .ok (Gen.mk 10 10 (seedOr (some 1) 3) (1/10)) :=
  ⟨Or.inl le_rfl,
    (invalid_dimensions_raise 0 10 (some 1) (1/10) 3 3 (Or.inl (by decide))).1,
    (invalid_dimensions_raise 10 (-5) (some 1) (1/10) 3 3 (Or.inr (by decide))).1,
    (invalid_dimensions_raise 0 10 (some 1) (1/10) 3 3 (Or.inl (by decide))).2.2⟩

/-! ### C3 — a 1-row grid crashes `ascii_map` -/

/-- C3 (code bug): for any 1-row generator — in particular a 1×1 grid — the
rendering loop evaluates `lat = y / (self.height - 1)` with `height - 1 = 0`
and raises `ZeroDivisionError` (modelled as `none`); the spec instead
requires a special-cased neutral latitude.  Construction itself succeeds. -/
theorem ascii_map_zero_division_height_one (sq : ℚ → ℚ) (pn? : Option Pnoise)
    (rr : ℕ → ℕ) (sc : ℚ) (w : ℕ) (d : ℤ) :
    asciiMap sq pn? (Gen.mk w 1 42 sc) rr = none ∧
    mkGen 1 1 (some 42) sc d = .ok (Gen.mk 1 1 42 sc) := by
  constructor
  · rfl
  · simp [mkGen, seedOr]

/-! ### C7 — the fallback hash: deterministic, but `int`, not `floor` -/

/-- C7 (amended): when no noise backend is present, `_perlin` reseeds the local
PRNG with `int(x*1000) ^ int(y*1000) ^ seed ^ base` — truncation toward
zero, not floor — and draws one value; the result never depends on the
incoming PRNG state, so fixed `(seed, x, y, base)` always yields the
identical value. -/
theorem fallback_hash_trunc_deterministic (seed base : ℤ) (x y scale : ℚ)
    (octaves : ℕ) (st st' : MTState) :
    (perlinSt none seed st x y scale octaves base).1
      = (mtRandom (pySeedState (fallbackSeed x y seed base))).1 ∧
    (perlinSt none seed st x y scale octaves base).1
      = (perlinSt none seed st' x y scale octaves base).1 ∧
    perlin none seed x y scale octaves base
      = (mtRandom (pySeedState (fallbackSeed x y seed base))).1 :=
  ⟨rfl, rfl, rfl⟩

/-- C7 counterexample: at `x = -1/6` (reachable: `nx = 1/3 - 0.5` for column 1
of a width-3 grid), `y = 0`, `seed = 42`, `base = 100`, the code truncates
`x*1000 = -166.66…` to `-166` while the spec's floor gives `-167`, so the
PRNG is seeded with `-236`, not the spec's `-233`. -/
theorem fallback_hash_not_floor :
    fallbackSeed (-(1/6)) 0 42 100 ≠ specFallbackSeed (-(1/6)) 0 42 100 ∧
    fallbackSeed (-(1/6)) 0 42 100 = -236 ∧
    specFallbackSeed (-(1/6)) 0 42 100 = -233 ∧
    pyInt (-(1/6) * 1000) = -166 ∧ ⌊(-(1/6) * 1000 : ℚ)⌋ = -167 := by
  refine ⟨?_, ?_, ?_, ?_, ?_⟩ <;> with_unfolding_all decide

/-! ### C5 — river cardinality bound -/

theorem riverWalk_card (hm : List (List ℚ)) (w h : ℕ) (fuel : ℕ) :
    ∀ (x y : ℕ) (rivers : Finset (ℕ × ℕ)),
      (riverWalk hm w h x y rivers fuel).card ≤ rivers.card + fuel := by
  induction fuel with
  | zero => intro x y rivers; simp [riverWalk]
  | succ n ih =>
    intro x y rivers
    rw [riverWalk]
    have hins := Finset.card_insert_le (x, y) rivers
    split
    · omega
    · exact le_trans (ih _ _ _) (by omega)

theorem findRiversGo_card (hm : List (List ℚ)) (w h : ℕ) (rr : ℕ → ℕ) (n : ℕ) :
    ∀ (rivers : Finset (ℕ × ℕ)) (idx : ℕ),
      (findRiversGo hm w h rr rivers idx n).card ≤ rivers.card + n * (w + h) := by
  induction n with
  | zero => intro rivers idx; simp [findRiversGo]
  | succ n ih =>
    intro rivers idx
    rw [findRiversGo]
    have hmul : (n + 1) * (w + h) = n * (w + h) + (w + h) := by ring
    split
    · exact le_trans (ih _ _) (by omega)
    · next x y heq =>
      have hw := riverWalk_card hm w h (w + h) x y rivers
      exact le_trans (ih _ _) (by omega)

/-- C5: however the oracle behaves, `_find_rivers` returns at most
`N · (width + height)` tiles — each of the `N` rivers walks at most
`width + height` steps and adds at most one cell per step into the shared
deduplicated set. -/
theorem river_set_card_bound (hm : List (List ℚ)) (w h : ℕ) (rr : ℕ → ℕ) (n : ℕ) :
    (findRivers hm w h rr n).card ≤ n * (w + h) := by
  have := findRiversGo_card hm w h rr n ∅ 0
  simpa [findRivers] using this

/-! ### C10 — river tiles sit at or above elevation 0.28 -/

theorem pickStart_elev (hm : List (List ℚ)) (w h : ℕ) (rr : ℕ → ℕ) (fuel : ℕ) :
    ∀ (idx : ℕ) (c : ℕ × ℕ), (pickStart hm w h rr idx fuel).1 = some c →
      (0.7 : ℚ) < hmAt hm c.1 c.2 := by
  induction fuel with
  | zero => intro idx c hc; simp [pickStart] at hc
  | succ n ih =>
    intro idx c hc
    rw [pickStart] at hc
    split at hc
    · next hcond =>
      injection hc with hc'
      subst hc'
      simpa using hcond
    · exact ih _ _ hc

theorem riverWalk_elev (hm : List (List ℚ)) (w h : ℕ) (fuel : ℕ) :
    ∀ (x y : ℕ) (rivers : Finset (ℕ × ℕ)),
      (0.28 : ℚ) ≤ hmAt hm x y →
      (∀ c ∈ rivers, (0.28 : ℚ) ≤ hmAt hm c.1 c.2) →
      ∀ c ∈ riverWalk hm w h x y rivers fuel, (0.28 : ℚ) ≤ hmAt hm c.1 c.2 := by
  induction fuel with
  | zero =>
    intro x y rivers _ hinv c hc
    rw [riverWalk] at hc
    exact hinv c hc
  | succ n ih =>
    intro x y rivers hcur hinv c hc
    rw [riverWalk] at hc
    have hins : ∀ c' ∈ insert (x, y) rivers, (0.28 : ℚ) ≤ hmAt hm c'.1 c'.2 := by
      intro c' hc'
      rcases Finset.mem_insert.mp hc' with rfl | hmem
      · exact hcur
      · exact hinv c' hmem
    split at hc
    · exact hins c hc
    · next hcond =>
      push_neg at hcond
      exact ih _ _ _ hcond.2 hins c hc

theorem findRiversGo_elev (hm : List (List ℚ)) (w h : ℕ) (rr : ℕ → ℕ) (n : ℕ) :
    ∀ (rivers : Finset (ℕ × ℕ)) (idx : ℕ),
      (∀ c ∈ rivers, (0.28 : ℚ) ≤ hmAt hm c.1 c.2) →
      ∀ c ∈ findRiversGo hm w h rr rivers idx n, (0.28 : ℚ) ≤ hmAt hm c.1 c.2 := by
  induction n with
  | zero =>
    intro rivers idx hinv c hc
    rw [findRiversGo] at hc
    exact hinv c hc
  | succ n ih =>
    intro rivers idx hinv c hc
    rw [findRiversGo] at hc
    split at hc
    · exact ih _ _ hinv c hc
    · next x y heq =>
      refine ih _ _ ?_ c hc
      refine riverWalk_elev hm w h (w + h) x y rivers ?_ hinv
      have h07 := pickStart_elev hm w h rr 100 idx (x, y) heq
      have : (0.28 : ℚ) ≤ 0.7 := by norm_num
      exact le_trans this (le_of_lt h07)

/-- C10: every tile `_find_rivers` returns has elevation at least 0.28 — the
start cell has elevation above 0.7, and a walk never moves onto a cell below
0.28 (it breaks first), so no below-sea-level cell is ever added. -/
theorem river_tiles_at_or_above_sea (hm : List (List ℚ)) (w h : ℕ) (rr : ℕ → ℕ)
    (n : ℕ) : ∀ c ∈ findRivers hm w h rr n, (0.28 : ℚ) ≤ hmAt hm c.1 c.2 := by
  intro c hc
  refine findRiversGo_elev hm w h rr n ∅ 0 ?_ c ?_
  · intro c' hc'
    simp at hc'
  · simpa [findRivers] using hc

/-- Witness for C10: on a concrete 2×2 heightmap with a single 0.8 peak, the
river set contains `(0, 0)`, whose elevation is indeed ≥ 0.28. -/
theorem river_tiles_at_or_above_sea_witness :
    (0, 0) ∈ findRivers [[4/5, 1/10], [1/10, 1/10]] 2 2 (fun _ => 0) 1 ∧
    (0.28 : ℚ) ≤ hmAt [[4/5, 1/10], [1/10, 1/10]] 0 0 :=
  ⟨by with_unfolding_all decide,
    river_tiles_at_or_above_sea [[4/5, 1/10], [1/10, 1/10]] 2 2 (fun _ => 0) 1
      (0, 0) (by with_unfolding_all decide)⟩

/-! ### C1 — determinism -/

/-- C1 (amended): for any fixed environment (sqrt model `sq`, noise backend
`pn?`, river-randint oracle `rr`) and any *nonzero* explicit seed, two
generators constructed with identical arguments are equal — whatever the
global draws `d1`, `d2` were — and therefore produce bit-identical
heightmaps, moisture maps, river sets, and ascii renders.  (With seed 0 the
passed seed is discarded, see the counterexample.) -/
theorem generation_deterministic_nonzero_seed (sq : ℚ → ℚ) (pn? : Option Pnoise)
    (rr : ℕ → ℕ) (w h v : ℤ) (sc : ℚ) (d1 d2 : ℤ) (hv : v ≠ 0) :
    mkGen w h (some v) sc d1 = mkGen w h (some v) sc d2 ∧
    (mkGen w h (some v) sc d1).map (fun g =>
        (heightGrid sq pn? g, moistGrid pn? g,
          findRivers (heightGrid sq pn? g) g.width g.height rr 12,
          asciiMap sq pn? g rr))
      = (mkGen w h (some v) sc d2).map (fun g =>
        (heightGrid sq pn? g, moistGrid pn? g,
          findRivers (heightGrid sq pn? g) g.width g.height rr 12,
          asciiMap sq pn? g rr)) := by
  have hg : mkGen w h (some v) sc d1 = mkGen w h (some v) sc d2 := by
    simp [mkGen, seedOr, hv]
  exact ⟨hg, by rw [hg]⟩

/-- Witness for C1 at seed 42, 10×10, scale 0.1, with distinct global draws. -/
theorem generation_deterministic_nonzero_seed_witness :
    (42 : ℤ) ≠ 0 ∧
    (mkGen 10 10 (some 42) (1/10) 1).map (fun g =>
        (heightGrid (fun q => q) none g, moistGrid none g,
          findRivers (heightGrid (fun q => q) none g) g.width g.height (fun _ => 0) 12,
          asciiMap (fun q => q) none g (fun _ => 0)))
      = (mkGen 10 10 (some 42) (1/10) 2).map (fun g =>
        (heightGrid (fun q => q) none g, moistGrid none g,
          findRivers (heightGrid (fun q => q) none g) g.width g.height (fun _ => 0) 12,
          asciiMap (fun q => q) none g (fun _ => 0))) :=
  ⟨by decide,
    (generation_deterministic_nonzero_seed (fun q => q) none (fun _ => 0)
      10 10 42 (1/10) 1 2 (by decide)).2⟩

/-- C1 counterexample: the claim fails for seed 0.  `0 or randint(...)` discards
the passed seed, so the two generations run with effective seeds equal to
their own global draws (here 1 and 2); under the noise backend
`pn x y o b = b` — the backend is external, and the claim must hold for
every backend — already the two 1×1 moisture maps differ
(`(1+300)·0.5+0.5 = 151` versus `(2+300)·0.5+0.5 = 151.5`). -/
theorem generation_seed_zero_not_reproducible :
    mkGen 1 1 (some 0) (1/10) 1 = .ok (Gen.mk 1 1 1 (1/10)) ∧
    mkGen 1 1 (some 0) (1/10) 2 = .ok (Gen.mk 1 1 2 (1/10)) ∧
    moistGrid (some fun _ _ _ b => (b : ℚ)) (Gen.mk 1 1 1 (1/10))
      ≠ moistGrid (some fun _ _ _ b => (b : ℚ)) (Gen.mk 1 1 2 (1/10)) := by
  refine ⟨by simp [mkGen, seedOr], by simp [mkGen, seedOr], ?_⟩
  with_unfolding_all decide

/-! ### C8 — moisture formula and range -/

/-- C8: every in-grid moisture cell equals
`sample(x/width, y/height, scale=2.0, octaves=4, base=300) * 0.5 + 0.5`, and
whenever the noise sample lies in [-1, 1] the stored moisture value lies in
[0, 1]. -/
theorem moisture_formula_range (pn? : Option Pnoise) (g : Gen) (x y : ℕ)
    (hx : x < g.width) (hy : y < g.height) :
    hmAt (moistGrid pn? g) x y
      = perlin pn? g.seed ((x : ℚ) / g.width) ((y : ℚ) / g.height) 2 4 300 * 0.5 + 0.5 ∧
    (-1 ≤ perlin pn? g.seed ((x : ℚ) / g.width) ((y : ℚ) / g.height) 2 4 300 →
      perlin pn? g.seed ((x : ℚ) / g.width) ((y : ℚ) / g.height) 2 4 300 ≤ 1 →
      0 ≤ hmAt (moistGrid pn? g) x y ∧ hmAt (moistGrid pn? g) x y ≤ 1) := by
  rw [hmAt_moistGrid pn? g x y hx hy]
  refine ⟨rfl, fun h1 h2 => ?_⟩
  unfold moistCell
  constructor <;> nlinarith

/-- Witness for C8 on a 2×2 generator with the constant backend 1/2. -/
theorem moisture_formula_range_witness :
    0 ≤ hmAt (moistGrid (some fun _ _ _ _ => (1/2 : ℚ)) (Gen.mk 2 2 7 (1/10))) 0 0 ∧
    hmAt (moistGrid (some fun _ _ _ _ => (1/2 : ℚ)) (Gen.mk 2 2 7 (1/10))) 0 0 ≤ 1 :=
  (moisture_formula_range (some fun _ _ _ _ => (1/2 : ℚ)) (Gen.mk 2 2 7 (1/10)) 0 0
      (by decide) (by decide)).2
    (by norm_num [perlin, perlinSt]) (by norm_num [perlin, perlinSt])

/-! ### C2 — heights are consumed as if clamped into [0, 1] -/

theorem pyInt_eq_floor (q : ℚ) (hq : 0 ≤ q) : pyInt q = ⌊q⌋ := by
  rw [Rat.floor_def]
  exact Int.tdiv_eq_ediv (Rat.num_nonneg.mpr hq) (Int.natCast_nonneg q.den)

/-- C2: the heightmap value consumed for biome classification and for colour
mapping behaves exactly as its clamp into [0,1]: the ascii glyph agrees for
every raw `h`, and the raster colour agrees for every raw `h ≥ 0` (the
synthesis formula keeps raw heights nonnegative whenever the noise channels
lie in [-1,1]); in particular an overshoot above 1 classifies and colours
exactly as the clamped value 1 does. -/
theorem height_consumed_as_clamped (h m lat latf : ℚ) (r : Bool) :
    asciiCellChar h m lat latf r = asciiCellChar (clamp01 h) m lat latf r ∧
    (0 ≤ h → heightColor h = heightColor (clamp01 h)) := by
  rcases le_or_lt h 1 with h1 | h1
  · rcases le_or_lt 0 h with h0 | h0
    · rw [show clamp01 h = h from by
        simp [clamp01, min_eq_right h1, max_eq_right h0]]
      exact ⟨rfl, fun _ => rfl⟩
    · rw [show clamp01 h = 0 from by
        simp [clamp01, min_eq_right h1, max_eq_left h0.le]]
      constructor
      · have eL : asciiCellChar h m lat latf r = "\x1b[34m~\x1b[0m" := by
          unfold asciiCellChar
          rw [if_pos (by linarith : h < 0.28)]
        have eR : asciiCellChar 0 m lat latf r = "\x1b[34m~\x1b[0m" := by
          unfold asciiCellChar
          rw [if_pos (by norm_num : (0 : ℚ) < 0.28)]
        rw [eL, eR]
      · intro h0'
        linarith
  · rw [show clamp01 h = 1 from by
      simp [clamp01, min_eq_left h1.le]]
    have hdiv : (75 : ℚ) * (h - 0.7) / 0.3 = 250 * (h - 0.7) := by ring
    have hgray : (255 : ℤ) ≤ pyInt (180 + 75 * (h - 0.7) / 0.3) := by
      rw [pyInt_eq_floor _ (by rw [hdiv]; linarith)]
      refine Int.le_floor.mpr ?_
      push_cast
      rw [hdiv]
      linarith
    constructor
    · cases r with
      | false =>
        have eL : asciiCellChar h m lat latf false = "\x1b[37m▲\x1b[0m" := by
          unfold asciiCellChar
          rw [if_neg (by linarith : ¬ h < 0.28), if_neg (by linarith : ¬ h < 0.32),
            if_neg (by simp : ¬ false = true), if_pos (by linarith : 0.88 < h)]
        have eR : asciiCellChar 1 m lat latf false = "\x1b[37m▲\x1b[0m" := by
          unfold asciiCellChar
          rw [if_neg (by norm_num : ¬ (1 : ℚ) < 0.28), if_neg (by norm_num : ¬ (1 : ℚ) < 0.32),
            if_neg (by simp : ¬ false = true), if_pos (by norm_num : (0.88 : ℚ) < 1)]
        rw [eL, eR]
      | true =>
        have eL : asciiCellChar h m lat latf true = "\x1b[96m≋\x1b[0m" := by
          unfold asciiCellChar
          rw [if_neg (by linarith : ¬ h < 0.28), if_neg (by linarith : ¬ h < 0.32),
            if_pos rfl]
        have eR : asciiCellChar 1 m lat latf true = "\x1b[96m≋\x1b[0m" := by
          unfold asciiCellChar
          rw [if_neg (by norm_num : ¬ (1 : ℚ) < 0.28), if_neg (by norm_num : ¬ (1 : ℚ) < 0.32),
            if_pos rfl]
        rw [eL, eR]
    · intro _
      have e1 : heightColor h = (255, 255, 255) := by
        unfold heightColor
        rw [if_neg (by linarith), if_neg (by linarith), if_neg (by linarith)]
        simp [min_eq_right hgray]
      have e2 : heightColor 1 = (255, 255, 255) := by
        unfold heightColor
        rw [if_neg (by norm_num), if_neg (by norm_num), if_neg (by norm_num)]
        have harg : (180 + 75 * ((1 : ℚ) - 0.7) / 0.3) = 255 := by norm_num
        rw [harg, pyInt_eq_floor _ (by norm_num)]
        norm_num
      rw [e1, e2]

/-- Witness for C2 at the overshoot `h = 21/20 > 1`. -/
theorem height_consumed_as_clamped_witness :
    asciiCellChar (21/20) (1/2) (1/2) 1 false
      = asciiCellChar (clamp01 (21/20)) (1/2) (1/2) 1 false ∧
    ((0 : ℚ) ≤ 21/20 ∧
      heightColor (21/20) = heightColor (clamp01 (21/20))) :=
  ⟨(height_consumed_as_clamped (21/20) (1/2) (1/2) 1 false).1,
    by norm_num,
    (height_consumed_as_clamped (21/20) (1/2) (1/2) 1 false).2 (by norm_num)⟩


/-! ### C4 — the biome classifier is first-match evaluation of §4.5's table -/

theorem firstIdx_unique {g : ℕ → Bool} {k k' : ℕ} (hg : g k = true)
    (hmin : ∀ j < k, g j = false) (hg' : g k' = true)
    (hmin' : ∀ j < k', g j = false) : k = k' := by
  by_contra hne
  rcases Nat.lt_or_ge k k' with hlt | hge
  · exact absurd hg (by simp [hmin' k hlt])
  · have hlt' : k' < k := lt_of_le_of_ne hge (Ne.symm hne)
    exact absurd hg' (by simp [hmin k' hlt'])

theorem classify_glyph (h m lat latf : ℚ) (r : Bool) :
    asciiCellChar h m lat latf r = glyph (classify h m lat latf r) := by
  simp only [asciiCellChar, classify, apply_ite glyph]
  rfl

theorem latFactor_spec (lat : ℚ) : latFactor lat = 1 - |2 * lat - 1| := by
  have h2 : |2 * lat - 1| = 2 * |lat - 0.5| := by
    rw [show (2 : ℚ) * lat - 1 = 2 * (lat - 0.5) by ring, abs_mul]
    norm_num
  rw [latFactor, h2]
  ring

theorem classify_cases (h m lat latf : ℚ) (r : Bool) :
    ∃ k : ℕ, k ≤ 12 ∧ ruleGuard h m lat latf r k = true ∧
      (∀ j < k, ruleGuard h m lat latf r j = false) ∧
      classify h m lat latf r = ruleTag k := by
  by_cases h0 : h < 0.28
  · exact ⟨0, by omega, by simp [ruleGuard, h0], fun j hj => absurd hj (by omega), by unfold classify; rw [if_pos h0]; rfl⟩
  by_cases h1 : h < 0.32
  · refine ⟨1, by omega, by simp [ruleGuard, h1], ?_, by unfold classify; rw [if_neg h0, if_pos h1]; rfl⟩
    intro j hj
    rcases j with _ | j
    · simp [ruleGuard, h0]
    · exact absurd hj (by omega)
  by_cases h2 : r = true
  · refine ⟨2, by omega, by simp [ruleGuard, h2], ?_, by unfold classify; rw [if_neg h0, if_neg h1, if_pos h2]; rfl⟩
    intro j hj
    rcases j with _ | _ | j
    · simp [ruleGuard, h0]
    · simp [ruleGuard, h1]
    · exact absurd hj (by omega)
  by_cases h3 : 0.88 < h
  · refine ⟨3, by omega, by simp [ruleGuard, h3], ?_, by unfold classify; rw [if_neg h0, if_neg h1, if_neg h2, if_pos h3]; rfl⟩
    intro j hj
    rcases j with _ | _ | _ | j
    · simp [ruleGuard, h0]
    · simp [ruleGuard, h1]
    · simp [ruleGuard, h2]
    · exact absurd hj (by omega)
  by_cases h4 : 0.78 < h
  · refine ⟨4, by omega, by simp [ruleGuard, h4], ?_, by unfold classify; rw [if_neg h0, if_neg h1, if_neg h2, if_neg h3, if_pos h4]; rfl⟩
    intro j hj
    rcases j with _ | _ | _ | _ | j
    · simp [ruleGuard, h0]
    · simp [ruleGuard, h1]
    · simp [ruleGuard, h2]
    · simp [ruleGuard, h3]
    · exact absurd hj (by omega)
  by_cases h5 : lat < 0.13 ∧ 0.33 < h
  · refine ⟨5, by omega, by simp [ruleGuard, h5], ?_, by unfold classify; rw [if_neg h0, if_neg h1, if_neg h2, if_neg h3, if_neg h4, if_pos h5]; rfl⟩
    intro j hj
    rcases j with _ | _ | _ | _ | _ | j
    · simp [ruleGuard, h0]
    · simp [ruleGuard, h1]
    · simp [ruleGuard, h2]
    · simp [ruleGuard, h3]
    · simp [ruleGuard, h4]
    · exact absurd hj (by omega)
  by_cases h6 : 0.87 < lat ∧ 0.33 < h
  · refine ⟨6, by omega, by simp [ruleGuard, h6], ?_, by unfold classify; rw [if_neg h0, if_neg h1, if_neg h2, if_neg h3, if_neg h4, if_neg h5, if_pos h6]; rfl⟩
    intro j hj
    rcases j with _ | _ | _ | _ | _ | _ | j
    · simp [ruleGuard, h0]
    · simp [ruleGuard, h1]
    · simp [ruleGuard, h2]
    · simp [ruleGuard, h3]
    · simp [ruleGuard, h4]
    · simp [ruleGuard, h5]
    · exact absurd hj (by omega)
  by_cases h7 : 0.78 < m ∧ 0.35 < h
  · refine ⟨7, by omega, by simp [ruleGuard, h7], ?_, by unfold classify; rw [if_neg h0, if_neg h1, if_neg h2, if_neg h3, if_neg h4, if_neg h5, if_neg h6, if_pos h7]; rfl⟩
    intro j hj
    rcases j with _ | _ | _ | _ | _ | _ | _ | j
    · simp [ruleGuard, h0]
    · simp [ruleGuard, h1]
    · simp [ruleGuard, h2]
    · simp [ruleGuard, h3]
    · simp [ruleGuard, h4]
    · simp [ruleGuard, h5]
    · simp [ruleGuard, h6]
    · exact absurd hj (by omega)
  by_cases h8 : m < 0.32 ∧ (0.33 < h ∧ h < 0.7) ∧ 0.2 < latf
  · refine ⟨8, by omega, by simp [ruleGuard, h8], ?_, by unfold classify; rw [if_neg h0, if_neg h1, if_neg h2, if_neg h3, if_neg h4, if_neg h5, if_neg h6, if_neg h7, if_pos h8]; rfl⟩
    intro j hj
    rcases j with _ | _ | _ | _ | _ | _ | _ | _ | j
    · simp [ruleGuard, h0]
    · simp [ruleGuard, h1]
    · simp [ruleGuard, h2]
    · simp [ruleGuard, h3]
    · simp [ruleGuard, h4]
    · simp [ruleGuard, h5]
    · simp [ruleGuard, h6]
    · simp [ruleGuard, h7]
    · exact absurd hj (by omega)
  by_cases h9 : m < 0.45 ∧ (0.33 < h ∧ h < 0.7) ∧ 0.1 < latf
  · refine ⟨9, by omega, by simp [ruleGuard, h9], ?_, by unfold classify; rw [if_neg h0, if_neg h1, if_neg h2, if_neg h3, if_neg h4, if_neg h5, if_neg h6, if_neg h7, if_neg h8, if_pos h9]; rfl⟩
    intro j hj
    rcases j with _ | _ | _ | _ | _ | _ | _ | _ | _ | j
    · simp [ruleGuard, h0]
    · simp [ruleGuard, h1]
    · simp [ruleGuard, h2]
    · simp [ruleGuard, h3]
    · simp [ruleGuard, h4]
    · simp [ruleGuard, h5]
    · simp [ruleGuard, h6]
    · simp [ruleGuard, h7]
    · simp [ruleGuard, h8]
    · exact absurd hj (by omega)
  by_cases h10 : m < 0.6 ∧ (0.33 < h ∧ h < 0.7)
  · refine ⟨10, by omega, by simp [ruleGuard, h10], ?_, by unfold classify; rw [if_neg h0, if_neg h1, if_neg h2, if_neg h3, if_neg h4, if_neg h5, if_neg h6, if_neg h7, if_neg h8, if_neg h9, if_pos h10]; rfl⟩
    intro j hj
    rcases j with _ | _ | _ | _ | _ | _ | _ | _ | _ | _ | j
    · simp [ruleGuard, h0]
    · simp [ruleGuard, h1]
    · simp [ruleGuard, h2]
    · simp [ruleGuard, h3]
    · simp [ruleGuard, h4]
    · simp [ruleGuard, h5]
    · simp [ruleGuard, h6]
    · simp [ruleGuard, h7]
    · simp [ruleGuard, h8]
    · simp [ruleGuard, h9]
    · exact absurd hj (by omega)
  by_cases h11 : m < 0.75 ∧ (0.33 < h ∧ h < 0.7)
  · refine ⟨11, by omega, by simp [ruleGuard, h11], ?_, by unfold classify; rw [if_neg h0, if_neg h1, if_neg h2, if_neg h3, if_neg h4, if_neg h5, if_neg h6, if_neg h7, if_neg h8, if_neg h9, if_neg h10, if_pos h11]; rfl⟩
    intro j hj
    rcases j with _ | _ | _ | _ | _ | _ | _ | _ | _ | _ | _ | j
    · simp [ruleGuard, h0]
    · simp [ruleGuard, h1]
    · simp [ruleGuard, h2]
    · simp [ruleGuard, h3]
    · simp [ruleGuard, h4]
    · simp [ruleGuard, h5]
    · simp [ruleGuard, h6]
    · simp [ruleGuard, h7]
    · simp [ruleGuard, h8]
    · simp [ruleGuard, h9]
    · simp [ruleGuard, h10]
    · exact absurd hj (by omega)
  refine ⟨12, by omega, by simp [ruleGuard], ?_, by unfold classify; rw [if_neg h0, if_neg h1, if_neg h2, if_neg h3, if_neg h4, if_neg h5, if_neg h6, if_neg h7, if_neg h8, if_neg h9, if_neg h10, if_neg h11]; rfl⟩
  intro j hj
  rcases j with _ | _ | _ | _ | _ | _ | _ | _ | _ | _ | _ | _ | j
  · simp [ruleGuard, h0]
  · simp [ruleGuard, h1]
  · simp [ruleGuard, h2]
  · simp [ruleGuard, h3]
  · simp [ruleGuard, h4]
  · simp [ruleGuard, h5]
  · simp [ruleGuard, h6]
  · simp [ruleGuard, h7]
  · simp [ruleGuard, h8]
  · simp [ruleGuard, h9]
  · simp [ruleGuard, h10]
  · simp [ruleGuard, h11]
  · exact absurd hj (by omega)

/-- C4: each ascii cell's glyph is the glyph of the §4.5 classifier applied to
(elevation, moisture, latitude, latitude factor, river membership); the
code's latitude factor is the spec's `1 - |2·lat - 1|`; for every input
exactly one rule of the ordered table is the first to match (totality via
the default rule 13); and the classifier returns precisely that rule's tag. -/
theorem biome_rules_first_match (h m lat latf : ℚ) (r : Bool) :
    asciiCellChar h m lat latf r = glyph (classify h m lat latf r) ∧
    latFactor lat = 1 - |2 * lat - 1| ∧
    (∃! k : ℕ, k ≤ 12 ∧ ruleGuard h m lat latf r k = true ∧
      ∀ j < k, ruleGuard h m lat latf r j = false) ∧
    ∀ k : ℕ, k ≤ 12 → ruleGuard h m lat latf r k = true →
      (∀ j < k, ruleGuard h m lat latf r j = false) →
      classify h m lat latf r = ruleTag k := by
  obtain ⟨k, hk, hg, hmin, heq⟩ := classify_cases h m lat latf r
  refine ⟨classify_glyph h m lat latf r, latFactor_spec lat,
    ⟨k, ⟨hk, hg, hmin⟩, ?_⟩, ?_⟩
  · rintro k' ⟨_, hg', hmin'⟩
    exact firstIdx_unique hg' hmin' hg hmin
  · intro k' _ hg' hmin'
    rw [heq, firstIdx_unique hg hmin hg' hmin']

/-- Witness for C4 at `h = m = lat = 1/2`, no river: rule 11 (grassland) is the
first to match, and the classifier returns its tag. -/
theorem biome_rules_first_match_witness :
    (10 : ℕ) ≤ 12 ∧ ruleGuard (1/2) (1/2) (1/2) 1 false 10 = true ∧
    (∀ j < 10, ruleGuard (1/2) (1/2) (1/2) 1 false j = false) ∧
    classify (1/2) (1/2) (1/2) 1 false = ruleTag 10 :=
  ⟨by decide, by with_unfolding_all decide, by with_unfolding_all decide,
    (biome_rules_first_match (1/2) (1/2) (1/2) 1 false).2.2.2 10 (by decide)
      (by with_unfolding_all decide) (by with_unfolding_all decide)⟩
